import Mathlib

/-!
Verification development for an archival IIIF access server.

The development embeds three parts of the code base:
* the institution-specific access policy `hasAccess` (src/service/niod/access.ts);
* the EAD finding-aid metadata resolver and access classifier
  (`getMetadata`, `getAccess`, `walkThroughLevels`, the `extract*` helpers);
* the service runtime dispatcher `initService`.

Machine times are embedded as integers (epoch milliseconds); the clock and
the item store are collaborators and appear as explicit parameters.
-/

/-! ## Access policy (src/service/niod/access.ts) -/

/-- Access states from the security module (`AccessState` enum: OPEN, CLOSED, TIERED).
The security module itself is a collaborator of the policy function. -/
inductive AccessState where
  | OPEN
  | CLOSED
  | TIERED
deriving Repr, DecidableEq

/-- The access decision record returned by `hasAccess` (`{state: AccessState}`). -/
structure Access where
  state : AccessState
deriving Repr, DecidableEq

/-- The fields of an item consulted by the niod `hasAccess` implementation:
`item.collection_id` (nullable) and `item.type`. -/
structure NiodItem where
  collection_id : Option String
  type : String
deriving Repr, DecidableEq

/-- The identity context handed to every access hook (`ip` and `identities`).
The niod implementation accepts it but never reads it. -/
structure IdentityContext where
  ip : String
  identities : List String := []
deriving Repr, DecidableEq

/-- Embedding of the niod `hasAccess` hook.  `rootAccessDate` is the value of
`(await getRootItemByCollectionId(item))?.niod?.accessDate` supplied by the item-store
collaborator, embedded as an optional integer time; `now` is the clock collaborator
(`moment()`).  `moment().isAfter(moment(accessDate))` is the strict comparison
`accessDate < now`. -/
def hasAccess (item : NiodItem) (rootAccessDate : Option Int) (now : Int)
    (_ctx : IdentityContext) : Access :=
  if item.collection_id = none ∨ item.type = "metadata" then
    { state := AccessState.OPEN }
  else
    match rootAccessDate with
    | none => { state := AccessState.OPEN }
    | some accessDate =>
        if accessDate < now then { state := AccessState.OPEN }
        else { state := AccessState.CLOSED }

/-! ## Runtime dispatcher (src/app.ts `initService`) -/

/-- The configuration fields the dispatcher reads: `config.appInstance`
(the per-instance ordinal from the environment, absent when not configured). -/
structure ConfigModel where
  appInstance : Option String
deriving Repr, DecidableEq

/-- Execution modes of a service descriptor (`runAs`). -/
inductive RunAs where
  | web
  | worker
  | standalone
  | cron
deriving Repr, DecidableEq

/-- The part of a service descriptor the dispatcher branches on. -/
structure ServiceSpec where
  name : String
  runAs : RunAs
deriving Repr, DecidableEq

/-- Which behavior `initService` activates for a descriptor. `skip` records that
the `switch` arm ran but activated nothing (gated single-instance modes). -/
inductive Activation where
  | startWeb
  | startWorker
  | startStandalone
  | startCron
  | skip
deriving Repr, DecidableEq

/-- Numeric value of a list of decimal digits. -/
def decDigitsVal (l : List Char) : Nat :=
  l.foldl (fun acc c => 10 * acc + (c.toNat - '0'.toNat)) 0

/-- Numeric value of a list of hexadecimal digits. -/
def hexDigitsVal (l : List Char) : Nat :=
  l.foldl (fun acc c =>
    16 * acc + (if c.isDigit then c.toNat - '0'.toNat else c.toLower.toNat - 'a'.toNat + 10)) 0

/-- JavaScript `parseInt(s)` with no radix argument: skip leading whitespace, read an
optional sign, then either a `0x`/`0X` hexadecimal literal or the longest leading
run of decimal digits; `none` stands for `NaN` (no digits at all). -/
def jsParseInt (s : String) : Option Int :=
  let t := s.data.dropWhile Char.isWhitespace
  let sign : Int := if t.head? = some '-' then -1 else 1
  let r := if t.head? = some '-' ∨ t.head? = some '+' then t.drop 1 else t
  let isHex : Bool := match r with
    | '0' :: c :: _ => c = 'x' ∨ c = 'X'
    | _ => false
  if isHex then
    let ds := (r.drop 2).takeWhile
      (fun c => c.isDigit || c ∈ ['a', 'b', 'c', 'd', 'e', 'f', 'A', 'B', 'C', 'D', 'E', 'F'])
    if ds = [] then none else some (sign * hexDigitsVal ds)
  else
    let ds := r.takeWhile Char.isDigit
    if ds = [] then none else some (sign * decDigitsVal ds)

/-- Embedding of the dispatcher body `initService`: one `switch` on `runAs`;
the `standalone` and `cron` arms are guarded by
`config.appInstance === undefined || parseInt(config.appInstance) === 0`. -/
def initService (config : ConfigModel) (service : ServiceSpec) : Activation :=
  match service.runAs with
  | RunAs.web => Activation.startWeb
  | RunAs.worker => Activation.startWorker
  | RunAs.standalone =>
      match config.appInstance with
      | none => Activation.startStandalone
      | some s => if jsParseInt s = some 0 then Activation.startStandalone else Activation.skip
  | RunAs.cron =>
      match config.appInstance with
      | none => Activation.startCron
      | some s => if jsParseInt s = some 0 then Activation.startCron else Activation.skip

/-- Collaborator contract of `node-cron` (`cron.schedule`, spec section 4.4): once a
cron descriptor is activated, its bound capability is invoked once per schedule tick;
a descriptor that is never activated is never invoked. -/
def cronInvocations (config : ConfigModel) (service : ServiceSpec) (ticks : Nat) : Nat :=
  if initService config service = Activation.startCron then ticks else 0

/-! ## String helpers used by the EAD module

The EAD code manipulates JavaScript strings (`trim`, `toLowerCase`, `includes`,
`split`) and XPath `normalize-space`.  They are embedded as character-list
computations. -/

/-- JavaScript `String.prototype.trim`. -/
def strTrim (s : String) : String :=
  ⟨((s.data.dropWhile Char.isWhitespace).reverse.dropWhile Char.isWhitespace).reverse⟩

/-- JavaScript `String.prototype.toLowerCase` (ASCII case folding). -/
def strToLower (s : String) : String :=
  ⟨s.data.map Char.toLower⟩

/-- JavaScript `String.prototype.includes`: substring containment. -/
def strContains (s pat : String) : Bool :=
  (List.range (s.data.length + 1)).any fun i => pat.data.isPrefixOf (s.data.drop i)

/-- XPath `normalize-space()`: strip leading/trailing whitespace and collapse
internal whitespace runs to single spaces. -/
def normalizeSpace (s : String) : String :=
  let l := s.data.foldr (fun c acc =>
    if c.isWhitespace then
      match acc with
      | [] => []
      | a :: _ => if a = ' ' then acc else ' ' :: acc
    else c :: acc) []
  ⟨l.dropWhile (fun c => c = ' ')⟩

/-- JavaScript `[...new Set(l)]`: deduplication keeping first occurrences in order. -/
def jsSetDedup (l : List String) : List String :=
  l.foldl (fun acc x => if x ∈ acc then acc else acc ++ [x]) []

/-- JavaScript `String.prototype.split('.')`, on character lists. -/
def splitOnDot : List Char → List (List Char)
  | [] => [[]]
  | c :: rest =>
      let r := splitOnDot rest
      if c = '.' then [] :: r
      else
        match r with
        | [] => [[c]]
        | w :: ws => (c :: w) :: ws

/-! ## EAD module (src/service/iish/ead.ts) -/

/-- The descriptive fields the `extract*` helpers read from one EAD level element:
its element name, the texts of `./did/unitid` and `./did/unittitle`, the texts of the
`genreform` classification elements, the `scopecontent` paragraph texts, the
`did/physdesc//extent` text, the `did//origination` elements (label attribute and
text), the `did//unitdate` texts, and the number of preceding sibling elements
(the value of the XPath `count(./preceding-sibling::*)`). -/
structure LevelInfo where
  name : String
  didUnitId : Option String := none
  didUnittitle : Option String := none
  genreforms : List String := []
  scopecontentPs : List String := []
  extent : Option String := none
  originations : List (Option String × String) := []
  unitdates : List String := []
  precedingSiblingCount : Nat := 0
deriving Repr, DecidableEq

/-- One EAD level element (`archdesc`, `c01`, `c02`, ... or `c`): its descriptive
fields and its child level elements in document order.  Every level element carries
a `did` child, which precedes the child levels in the document. -/
inductive EADElement where
  | node (info : LevelInfo) (children : List EADElement)
deriving Repr

/-- Descriptive fields of a level element. -/
def EADElement.info : EADElement → LevelInfo
  | node i _ => i

/-- Child level elements in document order. -/
def EADElement.children : EADElement → List EADElement
  | node _ c => c

/-- The resolved descriptive record for one level (interface `EADMetadata`). -/
structure EADMetadata where
  formats : List String
  title : String
  unitId : Option String := none
  unitIdIsInventoryNumber : Bool
  order : Option Nat := none
  content : Option String := none
  extent : Option String := none
  authors : Option (List (String × String)) := none
  dates : Option (List String) := none
  eadTitle : Option String := none
deriving Repr, DecidableEq

/-- The collection-level `accessrestrict` element found by the XPath
`//ead:ead/ead:archdesc/ead:descgrp[@type="access_and_use"]/ead:accessrestrict |
//ead:ead/ead:archdesc/ead:accessrestrict`: the text of its `./ead:p` child (when
present) and its `type` attribute (when present). -/
structure AccessRestrictInfo where
  pText : Option String := none
  typeAttr : Option String := none
deriving Repr, DecidableEq

/-- An EAD document as consumed by `getMetadata`/`getAccess`: the `archdesc`
element (absent when the document has none), the collection-level `accessrestrict`
projection, and the item-level `accessrestrict` relation: one entry per `unitid`
whose level carries its own `accessrestrict` element, carrying that element's
`type` attribute (the target of the XPath
`//ead:ead/ead:archdesc//ead:unitid[normalize-space()=u]/../../ead:accessrestrict`). -/
structure EADDocument where
  archdesc : Option EADElement := none
  accessRestrict : Option AccessRestrictInfo := none
  itemAccessRestricts : List (String × Option String) := []

/-- `getRootId`: the segment of the collection identifier before the first dot. -/
def getRootId (collectionId : String) : String :=
  ⟨(splitOnDot collectionId.data).headD []⟩

/-- `getUnitId`: the collection identifier with its leading segment removed
(split on dots, shift, join with dots). -/
def getUnitId (collectionId : String) : String :=
  ⟨List.intercalate ['.'] ((splitOnDot collectionId.data).drop 1)⟩

/-- First item-level `accessrestrict` whose `unitid` matches (XPath document
order, `normalize-space()` comparison). -/
def lookupItemRestrict (unitId : String) : List (String × Option String) → Option (Option String)
  | [] => none
  | (k, v) :: rest =>
      if normalizeSpace k = unitId then some v else lookupItemRestrict unitId rest

/-- The final `switch (restriction)` of `getAccess`: maps the recognized synonyms
(`gesloten`/`closed`, `beperkt`/`restricted`, `date`) and falls through to `open`,
also for a missing restriction. -/
def classifyRestriction : Option String → String
  | some r =>
      if r = "gesloten" ∨ r = "closed" then "closed"
      else if r = "beperkt" ∨ r = "restricted" then "restricted"
      else if r = "date" then "date"
      else "open"
  | none => "open"

/-- Embedding of `getAccess`: reads the collection-level restriction text
(lower-cased and trimmed); when the collection `accessrestrict` carries
`type="part"`, the restriction is replaced by the item-level `accessrestrict`
`type` attribute for the requested unit (defaulting to `open`, also when the unit
has no `accessrestrict` of its own); the final `switch` maps the recognized
synonyms and falls through to `open`. -/
def getAccess (collectionId : String) (ead : EADDocument) : String :=
  let restriction : Option String :=
    match ead.accessRestrict with
    | none => none
    | some accessRestrict =>
        let fromText := accessRestrict.pText.map (fun t => strTrim (strToLower t))
        if accessRestrict.typeAttr = some "part" then
          match lookupItemRestrict (getUnitId collectionId) ead.itemAccessRestricts with
          | some attr => some (attr.getD "open")
          | none => some "open"
        else fromText
  classifyRestriction restriction

/-! ## Metadata resolver (src/service/iish/ead.ts) -/

/-- `extractFormats`: classify each `genreform` text (lower-cased, substring match,
first match wins per text, `archive` as fallback). -/
def classifyFormat (s : String) : String :=
  let format := strToLower s
  if strContains format "article" then "article"
  else if strContains format "serial" then "serial"
  else if strContains format "book" then "book"
  else if strContains format "sound" then "sound"
  else if strContains format "visual" || strContains format "photo" ||
      strContains format "poster" || strContains format "drawing" ||
      strContains format "object" then "visual"
  else if strContains format "moving" then "moving visual"
  else "archive"

/-- `extractFormats`: when the level has no `genreform` elements and an inheritance
context exists, the context's format set is taken over unchanged; otherwise the
classified formats, deduplicated keeping first occurrences (`[...new Set(...)]`). -/
def extractFormats (ead : EADElement) (metadata : EADMetadata)
    (parentMetadata : Option EADMetadata) : EADMetadata :=
  let formats := ead.info.genreforms.map classifyFormat
  match parentMetadata with
  | some pm => if formats = [] then { metadata with formats := pm.formats }
               else { metadata with formats := jsSetDedup formats }
  | none => { metadata with formats := jsSetDedup formats }

/-- `extractTitle`: the trimmed `./did/unittitle` text when the element exists;
otherwise the record keeps the `No title` sentinel. -/
def extractTitle (ead : EADElement) (metadata : EADMetadata) : EADMetadata :=
  match ead.info.didUnittitle with
  | some t => { metadata with title := strTrim t }
  | none => metadata

/-- `extractUnitId`: runs only when the resolved title is truthy (non-empty).
With a `./did/unitid` element the identifier is its trimmed text and
`unitIdIsInventoryNumber` is `unitid exists AND parentMetadata !== null`; without
one the identifier is the hex digest of the md5 hash of the title (the `crypto`
collaborator, passed as `md5hex`) and the flag is false. -/
def extractUnitId (md5hex : String → String) (ead : EADElement) (metadata : EADMetadata)
    (parentMetadata : Option EADMetadata) : EADMetadata :=
  if metadata.title ≠ "" then
    match ead.info.didUnitId with
    | some u =>
        { metadata with
            unitIdIsInventoryNumber := parentMetadata.isSome,
            unitId := some (strTrim u) }
    | none =>
        { metadata with
            unitIdIsInventoryNumber := false,
            unitId := some (md5hex metadata.title) }
  else metadata

/-- `extractOrder`: the value of `count(./preceding-sibling::*)` for this level. -/
def extractOrder (ead : EADElement) (metadata : EADMetadata) : EADMetadata :=
  { metadata with order := some ead.info.precedingSiblingCount }

/-- `extractContent`: trimmed `scopecontent` paragraphs joined with `<br/>`,
set only when at least one paragraph exists. -/
def extractContent (ead : EADElement) (metadata : EADMetadata) : EADMetadata :=
  match ead.info.scopecontentPs with
  | [] => metadata
  | ps => { metadata with content := some (String.intercalate "<br/>" (ps.map strTrim)) }

/-- `extractExtent`: the trimmed `./did/physdesc//extent` text when present. -/
def extractExtent (ead : EADElement) (metadata : EADMetadata) : EADMetadata :=
  match ead.info.extent with
  | some e => { metadata with extent := some (strTrim e) }
  | none => metadata

/-- `extractAuthors`: one `(label, trimmed text)` pair per `./did//origination`
element, the label defaulting to `Author`; set only when at least one exists. -/
def extractAuthors (ead : EADElement) (metadata : EADMetadata) : EADMetadata :=
  match ead.info.originations.map (fun o => (o.1.getD "Author", strTrim o.2)) with
  | [] => metadata
  | origination => { metadata with authors := some origination }

/-- `extractDates`: the trimmed `./did//unitdate` texts, set only when at least
one exists. -/
def extractDates (ead : EADElement) (metadata : EADMetadata) : EADMetadata :=
  match ead.info.unitdates.map strTrim with
  | [] => metadata
  | dates => { metadata with dates := some dates }

/-- `extractEadTitle`: whenever an inheritance context exists, the record's
`eadTitle` becomes the context's `eadTitle` when that is truthy (non-empty),
otherwise the context's `title`. -/
def extractEadTitle (metadata : EADMetadata) (parentMetadata : Option EADMetadata) :
    EADMetadata :=
  match parentMetadata with
  | some pm =>
      { metadata with
          eadTitle := some (match pm.eadTitle with
            | some t => if t ≠ "" then t else pm.title
            | none => pm.title) }
  | none => metadata

/-- `extractMetadataFromLevel`: starts from the default record
(`formats: [], title: 'No title', unitIdIsInventoryNumber: true`) and applies the
field extractions in source order; a `null` level yields the default record. -/
def extractMetadataFromLevel (md5hex : String → String) (level : Option EADElement)
    (parentMetadata : Option EADMetadata := none) : EADMetadata :=
  let metadata : EADMetadata := { formats := [], title := "No title", unitIdIsInventoryNumber := true }
  match level with
  | none => metadata
  | some lv =>
      extractEadTitle
        (extractDates lv
          (extractAuthors lv
            (extractExtent lv
              (extractContent lv
                (extractOrder lv
                  (extractUnitId md5hex lv
                    (extractTitle lv
                      (extractFormats lv metadata parentMetadata))
                    parentMetadata))))))
        parentMetadata

/-- Embedding of the target lookup
`archdesc.get('.//ead:unitid[normalize-space()=unitId]/../..')`: the first element
in document order (pre-order: an element's own `did` precedes its children) whose
`./did/unitid` text normalize-spaces to the target, returned together with its
chain of ancestor level elements, root first. -/
def findLevel (target : String) (anc : List EADElement) :
    EADElement → Option (List EADElement × EADElement)
  | EADElement.node i cs =>
      if (i.didUnitId.map normalizeSpace) = some target then
        some (anc, EADElement.node i cs)
      else
        findLevelInList target (anc ++ [EADElement.node i cs]) cs
where
  /-- First match among a list of sibling subtrees, in document order. -/
  findLevelInList (target : String) (anc : List EADElement) :
      List EADElement → Option (List EADElement × EADElement)
    | [] => none
    | c :: rest =>
        match findLevel target anc c with
        | some r => some r
        | none => findLevelInList target anc rest

/-- Embedding of `walkThroughLevels`.  The source finds the enclosing level with
the XPath `level.get('.//preceding-sibling::ead:did/..')`: for a level nested
inside another `c` level that query returns the parent level (the level follows
its parent's `did`), while for a level sitting directly under `dsc` — or for the
`archdesc` itself — it returns the level itself or nothing, so the name comparison
stops the climb there.  The embedding therefore receives the chain of proper
ancestor levels below `archdesc`, nearest first, and stops at its end or as soon
as the next ancestor has the same element name.  As in the source, the record
extracted at each step is handed to the next (ancestor) step as its inheritance
context. -/
def walkThroughLevels (md5hex : String → String) :
    EADElement → List EADElement → EADMetadata → List EADMetadata
  | level, [], parentMetadata =>
      [extractMetadataFromLevel md5hex (some level) (some parentMetadata)]
  | level, parent :: rest, parentMetadata =>
      let metadata := extractMetadataFromLevel md5hex (some level) (some parentMetadata)
      if parent.info.name ≠ level.info.name then
        walkThroughLevels md5hex parent rest metadata ++ [metadata]
      else
        [metadata]

/-- Embedding of `getMetadata`: without an `archdesc` the result is empty;
otherwise the `archdesc` record comes first, followed by the records of the climb
from the level matching the unqualified unit id (the `archdesc` record is the
inheritance context handed to the matched level).  When no level matches, only the
`archdesc` record is returned. -/
def getMetadata (md5hex : String → String) (collectionId : String) (ead : EADDocument) :
    List EADMetadata :=
  match ead.archdesc with
  | none => []
  | some archdesc =>
      let unitId := getUnitId collectionId
      let metadata := extractMetadataFromLevel md5hex (some archdesc) none
      match findLevel unitId [] archdesc with
      | none => [metadata]
      | some (path, level) =>
          metadata :: walkThroughLevels md5hex level (path.drop 1).reverse metadata

/-- Stand-in for the md5 hex digest collaborator, used to instantiate concrete
evaluations; no claim depends on digest values. -/
def hashStandIn (s : String) : String := s

/-- The concrete finding aid of the end-to-end scenario: root titled `Fonds A`
(the `archdesc`, preceded in the document by the `eadheader`), an untitled child
level with identifier `1` (first child of the `dsc`), and a grandchild with
identifier `1.1` titled `Letter` (preceded inside its parent by the parent's
`did`). -/
def fondsATree : EADElement :=
  EADElement.node
    { name := "archdesc", didUnittitle := some "Fonds A", precedingSiblingCount := 1 }
    [EADElement.node { name := "c01", didUnitId := some "1", precedingSiblingCount := 0 }
      [EADElement.node
        { name := "c02", didUnitId := some "1.1", didUnittitle := some "Letter",
          precedingSiblingCount := 1 } []]]

/-- The scenario document. -/
def fondsADoc : EADDocument := { archdesc := some fondsATree }

/-! ## Claims C1 and C7 -/

/-- C1 counterexample: for an item with a binary payload whose collection has the
configured embargo date 10, evaluating at clock time exactly 10 yields `CLOSED`,
not `OPEN` as the claim states (the boundary in the code is exclusive, via
`moment().isAfter`). -/
theorem hasAccess_at_embargo_date_not_open :
    ¬ hasAccess { collection_id := some "C", type := "root" } (some 10) 10
        { ip := "127.0.0.1" } = { state := AccessState.OPEN } := by
  decide

/-- C1 (amended): for an item with a collection and a non-metadata type whose
collection has embargo date `d`, `hasAccess` returns `CLOSED` at every clock time
at or before `d` (in particular at `d - 1` and at `d` itself) and `OPEN` at every
clock time strictly after `d`: the boundary is exclusive. -/
theorem hasAccess_embargo_boundary (item : NiodItem) (d now : Int) (ctx : IdentityContext)
    (h1 : item.collection_id ≠ none) (h2 : item.type ≠ "metadata") :
    (now ≤ d → hasAccess item (some d) now ctx = { state := AccessState.CLOSED }) ∧
    (d < now → hasAccess item (some d) now ctx = { state := AccessState.OPEN }) := by
  constructor
  · intro hle
    simp only [hasAccess]
    rw [if_neg, if_neg]
    · omega
    · rintro (hc | ht)
      · exact h1 hc
      · exact h2 ht
  · intro hlt
    simp only [hasAccess]
    rw [if_neg, if_pos hlt]
    rintro (hc | ht)
    · exact h1 hc
    · exact h2 ht

/-- Witness for the amended embargo boundary claim at a concrete item and date. -/
theorem hasAccess_embargo_boundary_witness :
    hasAccess { collection_id := some "C", type := "root" } (some 10) 10
      { ip := "127.0.0.1" } = { state := AccessState.CLOSED } ∧
    hasAccess { collection_id := some "C", type := "root" } (some 10) 11
      { ip := "127.0.0.1" } = { state := AccessState.OPEN } :=
  ⟨(hasAccess_embargo_boundary { collection_id := some "C", type := "root" } 10 10
      { ip := "127.0.0.1" } (by decide) (by decide)).1 (by decide),
   (hasAccess_embargo_boundary { collection_id := some "C", type := "root" } 10 11
      { ip := "127.0.0.1" } (by decide) (by decide)).2 (by decide)⟩

/-- C7: when no embargo date is configured for the item's collection, `hasAccess`
returns `OPEN` for every item, every clock time and every identity context
(including the empty one): the policy fails open. -/
theorem hasAccess_fail_open (item : NiodItem) (now : Int) (ctx : IdentityContext) :
    hasAccess item none now ctx = { state := AccessState.OPEN } := by
  simp only [hasAccess]
  split <;> rfl

/-! ## Claim C8 -/

/-- C8: when the configured ordinal instance index parses to a value other than 0,
the dispatcher activates neither the scheduled (`cron`) nor the bootstrap
(`standalone`) descriptor, and the scheduled capability is invoked on no tick;
when the index is unset or parses to 0, a `cron` descriptor is activated and its
capability is invoked on every tick, and a `standalone` descriptor is activated. -/
theorem initService_single_instance_gating (config : ConfigModel) (service : ServiceSpec) :
    (∀ s, config.appInstance = some s → jsParseInt s ≠ some 0 →
      initService config service ≠ Activation.startCron ∧
      initService config service ≠ Activation.startStandalone ∧
      ∀ ticks, cronInvocations config service ticks = 0) ∧
    ((config.appInstance = none ∨ ∃ s, config.appInstance = some s ∧ jsParseInt s = some 0) →
      (service.runAs = RunAs.cron → initService config service = Activation.startCron ∧
        ∀ ticks, cronInvocations config service ticks = ticks) ∧
      (service.runAs = RunAs.standalone → initService config service = Activation.startStandalone)) := by
  obtain ⟨nm, ra⟩ := service
  constructor
  · intro s hs hne
    have hact : initService config ⟨nm, ra⟩ ≠ Activation.startCron ∧
        initService config ⟨nm, ra⟩ ≠ Activation.startStandalone := by
      cases ra <;> simp [initService, hs, hne]
    refine ⟨hact.1, hact.2, ?_⟩
    intro ticks
    unfold cronInvocations
    simp [hact.1]
  · intro hg
    constructor
    · intro hcron
      have hact : initService config ⟨nm, ra⟩ = Activation.startCron := by
        simp only at hcron
        subst hcron
        rcases hg with h0 | ⟨s, hs, h0⟩
        · simp [initService, h0]
        · simp [initService, hs, h0]
      exact ⟨hact, fun ticks => by unfold cronInvocations; simp [hact]⟩
    · intro hst
      simp only at hst
      subst hst
      rcases hg with h0 | ⟨s, hs, h0⟩
      · simp [initService, h0]
      · simp [initService, hs, h0]

/-- Witness for the single-instance gating claim: with ordinal "1" the cron
descriptor is skipped and never invoked; with the ordinal unset it is activated
and invoked on every tick. -/
theorem initService_single_instance_gating_witness :
    (initService { appInstance := some "1" } { name := "index", runAs := RunAs.cron } ≠
      Activation.startCron ∧
     cronInvocations { appInstance := some "1" } { name := "index", runAs := RunAs.cron } 5 = 0) ∧
    (initService { appInstance := none } { name := "index", runAs := RunAs.cron } =
      Activation.startCron ∧
     cronInvocations { appInstance := none } { name := "index", runAs := RunAs.cron } 5 = 5) :=
  ⟨⟨((initService_single_instance_gating { appInstance := some "1" }
        { name := "index", runAs := RunAs.cron }).1 "1" rfl (by decide)).1,
    ((initService_single_instance_gating { appInstance := some "1" }
        { name := "index", runAs := RunAs.cron }).1 "1" rfl (by decide)).2.2 5⟩,
   ⟨(((initService_single_instance_gating { appInstance := none }
        { name := "index", runAs := RunAs.cron }).2 (Or.inl rfl)).1 rfl).1,
    (((initService_single_instance_gating { appInstance := none }
        { name := "index", runAs := RunAs.cron }).2 (Or.inl rfl)).1 rfl).2 5⟩⟩

/-! ## Claims C2 and C9 -/

/-- C2 counterexample: a finding aid whose collection-level `accessrestrict` reads
`closed` and is scoped with `type="part"`, with an override (an item-level
`accessrestrict` with no `type` attribute) on identifier "1".  For the sibling
item "2", which no override covers, `getAccess` returns `open`, not the
collection-level `closed` the claim requires. -/
theorem getAccess_sibling_not_closed :
    getAccess "A.2"
      { archdesc := none,
        accessRestrict := some { pText := some "closed", typeAttr := some "part" },
        itemAccessRestricts := [("1", none)] } = "open" ∧
    ¬ getAccess "A.2"
      { archdesc := none,
        accessRestrict := some { pText := some "closed", typeAttr := some "part" },
        itemAccessRestricts := [("1", none)] } = "closed" := by
  constructor
  · decide
  · decide

/-- C2 (amended): when the collection-level `accessrestrict` is scoped with
`type="part"`, the item whose identifier carries an override with no explicit
classification is `open`, and so is every item not covered by any override: the
part-scoping makes `open` the default and the collection-level `closed` text never
applies to uncovered items.  The collection-level classification applies to an item
only when the restriction is not part-scoped. -/
theorem getAccess_part_override (cid : String) (doc : EADDocument) (ar : AccessRestrictInfo)
    (har : doc.accessRestrict = some ar) :
    (ar.typeAttr = some "part" →
      (lookupItemRestrict (getUnitId cid) doc.itemAccessRestricts = some none →
        getAccess cid doc = "open") ∧
      (lookupItemRestrict (getUnitId cid) doc.itemAccessRestricts = none →
        getAccess cid doc = "open")) ∧
    (ar.typeAttr ≠ some "part" → ∀ t, ar.pText = some t →
      strTrim (strToLower t) = "closed" → getAccess cid doc = "closed") := by
  constructor
  · intro hpart
    constructor
    · intro hl
      simp [getAccess, har, hpart, hl]
      decide
    · intro hl
      simp [getAccess, har, hpart, hl]
      decide
  · intro hnp t hp ht
    simp [getAccess, har, hnp, hp, ht]
    decide

/-- Witness for the amended part-scoping claim: override on "1" yields `open` for
item "1", the uncovered sibling "2" is `open`, and without part-scoping the
collection-level `closed` applies. -/
theorem getAccess_part_override_witness :
    getAccess "A.1"
      { archdesc := none,
        accessRestrict := some { pText := some "closed", typeAttr := some "part" },
        itemAccessRestricts := [("1", none)] } = "open" ∧
    getAccess "A.2"
      { archdesc := none,
        accessRestrict := some { pText := some "closed", typeAttr := some "part" },
        itemAccessRestricts := [("1", none)] } = "open" ∧
    getAccess "A.2"
      { archdesc := none,
        accessRestrict := some { pText := some "Closed", typeAttr := none },
        itemAccessRestricts := [("1", none)] } = "closed" :=
  ⟨((getAccess_part_override "A.1"
      { archdesc := none,
        accessRestrict := some { pText := some "closed", typeAttr := some "part" },
        itemAccessRestricts := [("1", none)] }
      { pText := some "closed", typeAttr := some "part" } rfl).1 rfl).1 (by decide),
   ((getAccess_part_override "A.2"
      { archdesc := none,
        accessRestrict := some { pText := some "closed", typeAttr := some "part" },
        itemAccessRestricts := [("1", none)] }
      { pText := some "closed", typeAttr := some "part" } rfl).1 rfl).2 (by decide),
   (getAccess_part_override "A.2"
      { archdesc := none,
        accessRestrict := some { pText := some "Closed", typeAttr := none },
        itemAccessRestricts := [("1", none)] }
      { pText := some "Closed", typeAttr := none } rfl).2 (by decide) "Closed" rfl (by decide)⟩

/-- C9: `getAccess` is total over the closed result set
{`open`, `closed`, `restricted`, `date`}; a document with no collection-level
`accessrestrict` yields `open`; and when the restriction is not part-scoped, any
restriction text whose lower-cased trim is none of the recognized synonyms
(`gesloten`/`closed`, `beperkt`/`restricted`, `date`) — as well as a missing text —
yields `open`. -/
theorem getAccess_total_fail_open (cid : String) (doc : EADDocument) :
    (getAccess cid doc = "open" ∨ getAccess cid doc = "closed" ∨
      getAccess cid doc = "restricted" ∨ getAccess cid doc = "date") ∧
    (doc.accessRestrict = none → getAccess cid doc = "open") ∧
    (∀ ar, doc.accessRestrict = some ar → ar.typeAttr ≠ some "part" →
      (∀ t, ar.pText = some t →
        ¬ strTrim (strToLower t) ∈ ["gesloten", "closed", "beperkt", "restricted", "date"]) →
      getAccess cid doc = "open") := by
  have htotal : ∀ o : Option String, classifyRestriction o = "open" ∨
      classifyRestriction o = "closed" ∨ classifyRestriction o = "restricted" ∨
      classifyRestriction o = "date" := by
    intro o
    cases o with
    | none => left; rfl
    | some r =>
        unfold classifyRestriction
        by_cases h1 : r = "gesloten" ∨ r = "closed"
        · right; left; simp [h1]
        · by_cases h2 : r = "beperkt" ∨ r = "restricted"
          · right; right; left; simp [h1, h2]
          · by_cases h3 : r = "date"
            · right; right; right; simp [h1, h2, h3]
            · left; simp [h1, h2, h3]
  refine ⟨?_, ?_, ?_⟩
  · exact htotal _
  · intro h
    simp [getAccess, h, classifyRestriction]
  · intro ar har hnp htext
    unfold getAccess
    rw [har]
    simp only [if_neg hnp]
    cases hp : ar.pText with
    | none => rfl
    | some t =>
        have h5 := htext t hp
        simp only [List.mem_cons, List.not_mem_nil, or_false] at h5
        push_neg at h5
        obtain ⟨g1, g2, g3, g4, g5⟩ := h5
        simp [classifyRestriction, g1, g2, g3, g4, g5]

/-- Witness for totality and fail-open of `getAccess`: a document with no
`accessrestrict` and a document whose restriction text is unrecognized both
classify as `open`, and the classification of a `date` restriction lies in the
result set. -/
theorem getAccess_total_fail_open_witness :
    getAccess "A.1" { archdesc := none } = "open" ∧
    getAccess "A.1"
      { archdesc := none,
        accessRestrict := some { pText := some " See the reading room " } } = "open" ∧
    (getAccess "A.1" { archdesc := none, accessRestrict := some { pText := some "Date" } } = "open" ∨
     getAccess "A.1" { archdesc := none, accessRestrict := some { pText := some "Date" } } = "closed" ∨
     getAccess "A.1" { archdesc := none, accessRestrict := some { pText := some "Date" } } = "restricted" ∨
     getAccess "A.1" { archdesc := none, accessRestrict := some { pText := some "Date" } } = "date") :=
  ⟨(getAccess_total_fail_open "A.1" { archdesc := none }).2.1 rfl,
   (getAccess_total_fail_open "A.1"
      { archdesc := none,
        accessRestrict := some { pText := some " See the reading room " } }).2.2
      { pText := some " See the reading room " } rfl (by decide)
      (fun t ht => by
        injection ht with h
        subst h
        decide),
   (getAccess_total_fail_open "A.1"
      { archdesc := none, accessRestrict := some { pText := some "Date" } }).1⟩

/-! ## Claims C3, C4, C5, C6 and C10 -/

/-- C3 counterexample: on the scenario tree, `getMetadata "A.1.1"` does return
three records root-first with titles `Fonds A`, `No title`, `Letter`, but the root
record's `order` is set (to 1, the count of the `archdesc`'s preceding siblings)
rather than unset, and the third record's `eadTitle` is `Fonds A` (the root
context is handed to the target level) rather than `No title`, so the claimed
record list is not produced. -/
theorem getMetadata_scenario_counterexample :
    ¬ ((getMetadata hashStandIn "A.1.1" fondsADoc).length = 3 ∧
       ((getMetadata hashStandIn "A.1.1" fondsADoc).get? 0).map (fun m => m.title) =
         some "Fonds A" ∧
       ((getMetadata hashStandIn "A.1.1" fondsADoc).get? 0).map (fun m => m.order) =
         some none ∧
       ((getMetadata hashStandIn "A.1.1" fondsADoc).get? 1).map (fun m => m.title) =
         some "No title" ∧
       ((getMetadata hashStandIn "A.1.1" fondsADoc).get? 1).map (fun m => m.eadTitle) =
         some (some "Fonds A") ∧
       ((getMetadata hashStandIn "A.1.1" fondsADoc).get? 2).map (fun m => m.title) =
         some "Letter" ∧
       ((getMetadata hashStandIn "A.1.1" fondsADoc).get? 2).map (fun m => m.eadTitle) =
         some (some "No title")) := by
  decide

/-- C3 (amended): on the scenario tree, `resolveMetadata("A.1.1")` returns exactly
three records root-first: the root record with title `Fonds A`, a surrogate
identifier derived from the title, and order 1 (the `archdesc` follows the
document header); then the untitled level as `No title` with identifier `1`,
order 0 and `ancestorTitle` `Fonds A`; then `Letter` with identifier `1.1`,
order 1 and `ancestorTitle` also `Fonds A` — the target level's inheritance
context is the root record and each ancestor inherits its child's context, so
every non-root record resolves `ancestorTitle` to the collection title. -/
theorem getMetadata_scenario (md5hex : String → String) :
    getMetadata md5hex "A.1.1" fondsADoc =
      [{ formats := [], title := "Fonds A", unitId := some (md5hex "Fonds A"),
         unitIdIsInventoryNumber := false, order := some 1 },
       { formats := [], title := "No title", unitId := some "1",
         unitIdIsInventoryNumber := true, order := some 0, eadTitle := some "Fonds A" },
       { formats := [], title := "Letter", unitId := some "1.1",
         unitIdIsInventoryNumber := true, order := some 1, eadTitle := some "Fonds A" }] :=
  rfl

/-- The `unitIdIsInventoryNumber` field is untouched by `extractOrder`. -/
theorem extractOrder_keeps_flag (e : EADElement) (m : EADMetadata) :
    (extractOrder e m).unitIdIsInventoryNumber = m.unitIdIsInventoryNumber := rfl

/-- The `unitIdIsInventoryNumber` field is untouched by `extractContent`. -/
theorem extractContent_keeps_flag (e : EADElement) (m : EADMetadata) :
    (extractContent e m).unitIdIsInventoryNumber = m.unitIdIsInventoryNumber := by
  unfold extractContent
  split <;> rfl

/-- The `unitIdIsInventoryNumber` field is untouched by `extractExtent`. -/
theorem extractExtent_keeps_flag (e : EADElement) (m : EADMetadata) :
    (extractExtent e m).unitIdIsInventoryNumber = m.unitIdIsInventoryNumber := by
  unfold extractExtent
  split <;> rfl

/-- The `unitIdIsInventoryNumber` field is untouched by `extractAuthors`. -/
theorem extractAuthors_keeps_flag (e : EADElement) (m : EADMetadata) :
    (extractAuthors e m).unitIdIsInventoryNumber = m.unitIdIsInventoryNumber := by
  unfold extractAuthors
  split <;> rfl

/-- The `unitIdIsInventoryNumber` field is untouched by `extractDates`. -/
theorem extractDates_keeps_flag (e : EADElement) (m : EADMetadata) :
    (extractDates e m).unitIdIsInventoryNumber = m.unitIdIsInventoryNumber := by
  unfold extractDates
  split <;> rfl

/-- The `unitIdIsInventoryNumber` field is untouched by `extractEadTitle`. -/
theorem extractEadTitle_keeps_flag (m : EADMetadata) (pm : Option EADMetadata) :
    (extractEadTitle m pm).unitIdIsInventoryNumber = m.unitIdIsInventoryNumber := by
  unfold extractEadTitle
  split <;> rfl

/-- `extractFormats` only changes the `formats` field. -/
theorem extractFormats_keeps_title_flag (e : EADElement) (m : EADMetadata)
    (pm : Option EADMetadata) :
    (extractFormats e m pm).title = m.title ∧
    (extractFormats e m pm).unitIdIsInventoryNumber = m.unitIdIsInventoryNumber := by
  unfold extractFormats
  cases pm with
  | none => exact ⟨rfl, rfl⟩
  | some p =>
      dsimp only
      split <;> exact ⟨rfl, rfl⟩

/-- C4 counterexample: a non-root level with the explicit identifier `1` resolves
with `unitIdIsInventoryNumber = true`, while the claim requires the flag to be
false whenever an explicit identifier exists. -/
theorem extractUnitId_flag_counterexample :
    ((extractMetadataFromLevel hashStandIn
        (some (EADElement.node { name := "c01", didUnitId := some "1" } []))
        (some { formats := [], title := "Fonds A", unitIdIsInventoryNumber := false })).unitId =
      some "1") ∧
    (extractMetadataFromLevel hashStandIn
        (some (EADElement.node { name := "c01", didUnitId := some "1" } []))
        (some { formats := [], title := "Fonds A", unitIdIsInventoryNumber := false })).unitIdIsInventoryNumber =
      true := by
  decide

/-- C4 (amended): for every level whose resolved title is truthy (its `unittitle`,
when present, does not trim to the empty string), the resolved record's
`unitIdIsInventoryNumber` flag is true exactly when the level HAS an explicit
`unitid` element AND the record is not the root record (an inheritance context
exists); in particular it is false when no explicit identifier exists and a
surrogate is derived, and false for the root record. -/
theorem extractMetadataFromLevel_inventory_flag (md5hex : String → String)
    (lv : EADElement) (pm : Option EADMetadata)
    (h : ∀ t, lv.info.didUnittitle = some t → strTrim t ≠ "") :
    (extractMetadataFromLevel md5hex (some lv) pm).unitIdIsInventoryNumber =
      (lv.info.didUnitId.isSome && pm.isSome) := by
  unfold extractMetadataFromLevel
  rw [extractEadTitle_keeps_flag, extractDates_keeps_flag, extractAuthors_keeps_flag,
    extractExtent_keeps_flag, extractContent_keeps_flag, extractOrder_keeps_flag]
  have htitle :
      (extractTitle lv (extractFormats lv
        { formats := [], title := "No title", unitIdIsInventoryNumber := true } pm)).title ≠ "" := by
    unfold extractTitle
    cases hdt : lv.info.didUnittitle with
    | none =>
        rw [(extractFormats_keeps_title_flag lv _ pm).1]
        decide
    | some t => exact h t hdt
  unfold extractUnitId
  rw [if_pos htitle]
  cases hdu : lv.info.didUnitId with
  | none => simp
  | some u => simp

/-- Witness for the amended inventory-number flag claim: explicit identifier and a
context give `true`; no identifier (surrogate) gives `false`; the root record
(no context) gives `false`. -/
theorem extractMetadataFromLevel_inventory_flag_witness :
    (extractMetadataFromLevel hashStandIn
      (some (EADElement.node { name := "c01", didUnitId := some "1" } []))
      (some { formats := [], title := "Fonds A", unitIdIsInventoryNumber := false })).unitIdIsInventoryNumber =
      true ∧
    (extractMetadataFromLevel hashStandIn
      (some (EADElement.node { name := "c01", didUnittitle := some "Series" } []))
      (some { formats := [], title := "Fonds A", unitIdIsInventoryNumber := false })).unitIdIsInventoryNumber =
      false ∧
    (extractMetadataFromLevel hashStandIn
      (some (EADElement.node { name := "archdesc", didUnitId := some "ARCH" } []))
      none).unitIdIsInventoryNumber = false :=
  ⟨extractMetadataFromLevel_inventory_flag hashStandIn
      (EADElement.node { name := "c01", didUnitId := some "1" } [])
      (some { formats := [], title := "Fonds A", unitIdIsInventoryNumber := false })
      (fun t ht => by simp [EADElement.info] at ht),
   extractMetadataFromLevel_inventory_flag hashStandIn
      (EADElement.node { name := "c01", didUnittitle := some "Series" } [])
      (some { formats := [], title := "Fonds A", unitIdIsInventoryNumber := false })
      (fun t ht => by
        simp [EADElement.info] at ht
        subst ht
        decide),
   extractMetadataFromLevel_inventory_flag hashStandIn
      (EADElement.node { name := "archdesc", didUnitId := some "ARCH" } []) none
      (fun t ht => by simp [EADElement.info] at ht)⟩

/-- C5: a level with no `genreform` classification elements takes its format set
unchanged from its inheritance context (in particular context `{book}` yields
`{book}`); a level with at least one classification element keeps its own
classified, deduplicated set regardless of context — propagation happens exactly
when the level's own extraction yields nothing. -/
theorem extractFormats_inheritance (e : EADElement) (m p : EADMetadata) :
    (e.info.genreforms = [] → (extractFormats e m (some p)).formats = p.formats) ∧
    (e.info.genreforms ≠ [] → ∀ pm,
      (extractFormats e m pm).formats = jsSetDedup (e.info.genreforms.map classifyFormat)) := by
  constructor
  · intro hg
    simp [extractFormats, hg]
  · intro hg pm
    cases pm with
    | none => simp [extractFormats]
    | some q =>
        simp only [extractFormats]
        rw [if_neg]
        simp [hg]

/-- Witness for format inheritance: a child with no classifiable text under a
context classified `{book}` resolves to `{book}`, and a level with the
classification text `Photo collection` keeps its own set `{visual}`. -/
theorem extractFormats_inheritance_witness :
    (extractFormats (EADElement.node { name := "c02" } [])
      { formats := [], title := "No title", unitIdIsInventoryNumber := true }
      (some { formats := ["book"], title := "Parent", unitIdIsInventoryNumber := false })).formats =
      ["book"] ∧
    (extractFormats (EADElement.node { name := "c02", genreforms := ["Photo collection"] } [])
      { formats := [], title := "No title", unitIdIsInventoryNumber := true }
      (some { formats := ["book"], title := "Parent", unitIdIsInventoryNumber := false })).formats =
      ["visual"] :=
  ⟨(extractFormats_inheritance (EADElement.node { name := "c02" } [])
      { formats := [], title := "No title", unitIdIsInventoryNumber := true }
      { formats := ["book"], title := "Parent", unitIdIsInventoryNumber := false }).1 rfl,
   (extractFormats_inheritance (EADElement.node { name := "c02", genreforms := ["Photo collection"] } [])
      { formats := [], title := "No title", unitIdIsInventoryNumber := true }
      { formats := ["book"], title := "Parent", unitIdIsInventoryNumber := false }).2
      (by decide) (some { formats := ["book"], title := "Parent", unitIdIsInventoryNumber := false })⟩

/-- C6: for every document whose `archdesc` is present and every target collection
identifier whose unqualified unit id matches no level of the tree, `getMetadata`
returns exactly one record: the root (`archdesc`) record.  The absent target is
recovered by this fallback and no failure is produced. -/
theorem getMetadata_fallback_root (md5hex : String → String) (x : String)
    (ead : EADDocument) (a : EADElement) (ha : ead.archdesc = some a)
    (hnone : findLevel (getUnitId x) [] a = none) :
    getMetadata md5hex x ead = [extractMetadataFromLevel md5hex (some a) none] := by
  unfold getMetadata
  rw [ha]
  simp only [hnone]

/-- Witness for the fallback claim: identifier `A.9` is absent from the scenario
tree and resolves to the single root record. -/
theorem getMetadata_fallback_root_witness :
    getMetadata hashStandIn "A.9" fondsADoc =
      [extractMetadataFromLevel hashStandIn (some fondsATree) none] :=
  getMetadata_fallback_root hashStandIn "A.9" fondsADoc fondsATree rfl rfl

/-- C10: a document with no `archdesc` element yields the empty record list for
every collection identifier — no root record is synthesized. -/
theorem getMetadata_no_archdesc (md5hex : String → String) (cid : String)
    (ar : Option AccessRestrictInfo) (ir : List (String × Option String)) :
    getMetadata md5hex cid
      { archdesc := none, accessRestrict := ar, itemAccessRestricts := ir } = [] :=
  rfl

/-- C9 counterexample: with a part-scoped collection restriction
(`type="part"`) whose text `see the reading room` is not a recognized synonym,
an item whose own `accessrestrict` carries the type attribute `gesloten`
classifies `closed`, not `open` — so unrecognized collection restriction
language does not fail open for every document, as the claim states. -/
theorem getAccess_part_unrecognized_text_closed :
    getAccess "A.1"
      { archdesc := none,
        accessRestrict := some { pText := some "see the reading room", typeAttr := some "part" },
        itemAccessRestricts := [("1", some "gesloten")] } = "closed" ∧
    ¬ getAccess "A.1"
      { archdesc := none,
        accessRestrict := some { pText := some "see the reading room", typeAttr := some "part" },
        itemAccessRestricts := [("1", some "gesloten")] } = "open" := by
  constructor
  · decide
  · decide
